import Mathlib

/- Verification of the review cache-consistency layer of a travel review
service.  The embedding covers the cache key builders, the Redis cache
helpers, the cache invalidation routine, the review write handlers
(create, update, delete), the paginated read handlers and the generic
exception handler, translated from app/api/reviews.py and
app/api/__init__.py. -/

/- ---------------------------------------------------------------- -/
/- Strings: code point ordering, as Python compares strings.        -/
/- ---------------------------------------------------------------- -/

/-- Lexicographic comparison of character lists by code point, the order
Python uses when `sorted` compares strings. -/
def chLe : List Char → List Char → Bool
  | [], _ => true
  | _ :: _, [] => false
  | a :: as, b :: bs =>
    if a.toNat < b.toNat then true
    else if b.toNat < a.toNat then false
    else chLe as bs

theorem char_eq_of_toNat_eq {a b : Char} (h : a.toNat = b.toNat) : a = b := by
  apply Char.eq_of_val_eq
  cases a with
  | mk av ah =>
    cases b with
    | mk bv bh =>
      cases av with
      | mk abv =>
        cases bv with
        | mk bbv =>
          simp only [Char.toNat, UInt32.toNat] at h
          have : abv = bbv := BitVec.eq_of_toNat_eq h
          subst this
          rfl

theorem chLe_total : ∀ as bs : List Char, chLe as bs = true ∨ chLe bs as = true := by
  intro as
  induction as with
  | nil => intro bs; exact Or.inl rfl
  | cons a as ih =>
    intro bs
    cases bs with
    | nil => exact Or.inr rfl
    | cons b bs =>
      by_cases hab : a.toNat < b.toNat
      · left; simp [chLe, hab]
      · by_cases hba : b.toNat < a.toNat
        · right; simp [chLe, hba]
        · rcases ih bs with h | h
          · left; simp [chLe, hab, hba, h]
          · right; simp [chLe, hab, hba, h]

theorem chLe_trans : ∀ as bs cs : List Char,
    chLe as bs = true → chLe bs cs = true → chLe as cs = true := by
  intro as
  induction as with
  | nil => intro bs cs _ _; rfl
  | cons a as ih =>
    intro bs cs h1 h2
    cases bs with
    | nil => simp [chLe] at h1
    | cons b bs =>
      cases cs with
      | nil => simp [chLe] at h2
      | cons c cs =>
        simp only [chLe] at h1 h2 ⊢
        by_cases hab : a.toNat < b.toNat
        · by_cases hbc : b.toNat < c.toNat
          · simp [Nat.lt_trans hab hbc]
          · by_cases hcb : c.toNat < b.toNat
            · simp [hbc, hcb] at h2
            · have hbceq : b.toNat = c.toNat := Nat.le_antisymm (Nat.le_of_not_lt hcb) (Nat.le_of_not_lt hbc)
              simp [hbceq ▸ hab]
        · by_cases hba : b.toNat < a.toNat
          · simp [hab, hba] at h1
          · have habeq : a.toNat = b.toNat := Nat.le_antisymm (Nat.le_of_not_lt hba) (Nat.le_of_not_lt hab)
            simp only [hab, if_neg, hba] at h1
            by_cases hbc : b.toNat < c.toNat
            · simp [habeq ▸ hbc]
            · by_cases hcb : c.toNat < b.toNat
              · simp [hbc, hcb] at h2
              · have hbceq : b.toNat = c.toNat := Nat.le_antisymm (Nat.le_of_not_lt hcb) (Nat.le_of_not_lt hbc)
                have h1' : chLe as bs = true := by simpa [hab, hba] using h1
                have h2' : chLe bs cs = true := by simpa [hbc, hcb] using h2
                have hac : ¬ a.toNat < c.toNat := by omega
                have hca : ¬ c.toNat < a.toNat := by omega
                simp [hac, hca, ih bs cs h1' h2']

theorem chLe_antisymm : ∀ as bs : List Char,
    chLe as bs = true → chLe bs as = true → as = bs := by
  intro as
  induction as with
  | nil =>
    intro bs _ h2
    cases bs with
    | nil => rfl
    | cons b bs => simp [chLe] at h2
  | cons a as ih =>
    intro bs h1 h2
    cases bs with
    | nil => simp [chLe] at h1
    | cons b bs =>
      simp only [chLe] at h1 h2
      by_cases hab : a.toNat < b.toNat
      · have : ¬ b.toNat < a.toNat := by omega
        simp [this, hab] at h2
      · by_cases hba : b.toNat < a.toNat
        · simp [hab, hba] at h1
        · have habeq : a.toNat = b.toNat := Nat.le_antisymm (Nat.le_of_not_lt hba) (Nat.le_of_not_lt hab)
          have h1' : chLe as bs = true := by simpa [hab, hba] using h1
          have h2' : chLe bs as = true := by simpa [hab, hba] using h2
          rw [char_eq_of_toNat_eq habeq, ih bs h1' h2']

theorem string_eq_of_toList_eq {a b : String} (h : a.toList = b.toList) : a = b := by
  cases a with
  | mk ad =>
    cases b with
    | mk bd =>
      exact congrArg String.mk (by simpa [String.toList] using h)

/-- Code point comparison of two strings, the order Python uses. -/
def strLe (a b : String) : Bool :=
  chLe a.toList b.toList

theorem strLe_total (a b : String) : strLe a b = true ∨ strLe b a = true :=
  chLe_total a.toList b.toList

theorem strLe_trans {a b c : String} (h1 : strLe a b = true) (h2 : strLe b c = true) :
    strLe a c = true :=
  chLe_trans _ _ _ h1 h2

theorem strLe_antisymm {a b : String} (h1 : strLe a b = true) (h2 : strLe b a = true) :
    a = b :=
  string_eq_of_toList_eq (chLe_antisymm _ _ h1 h2)

/- ---------------------------------------------------------------- -/
/- Cache Key Builder (get_reviews_cache_key and friends).           -/
/- ---------------------------------------------------------------- -/

/-- Ordering used by Python `sorted(params.items())`: compare the
parameter names by code point, break ties on the values. -/
def paramLe (a b : String × String) : Prop :=
  (if a.1 = b.1 then strLe a.2 b.2 else strLe a.1 b.1) = true

instance : DecidableRel paramLe := fun a b => by
  unfold paramLe; infer_instance

instance : IsTotal (String × String) paramLe := by
  constructor
  intro a b
  unfold paramLe
  by_cases h : a.1 = b.1
  · rcases strLe_total a.2 b.2 with hv | hv
    · exact Or.inl (by simp [h, hv])
    · exact Or.inr (by simp [h.symm, hv])
  · have h' : ¬ b.1 = a.1 := fun e => h e.symm
    rcases strLe_total a.1 b.1 with hk | hk
    · exact Or.inl (by simp [h, hk])
    · exact Or.inr (by simp [h', hk])

instance : IsTrans (String × String) paramLe := by
  constructor
  intro a b c h1 h2
  unfold paramLe at h1 h2 ⊢
  by_cases hab : a.1 = b.1
  · by_cases hbc : b.1 = c.1
    · have hac : a.1 = c.1 := hab.trans hbc
      rw [if_pos hab] at h1
      rw [if_pos hbc] at h2
      rw [if_pos hac]
      exact strLe_trans h1 h2
    · have hac : ¬ a.1 = c.1 := fun e => hbc (hab ▸ e)
      rw [if_neg hbc] at h2
      rw [if_neg hac, hab]
      exact h2
  · by_cases hbc : b.1 = c.1
    · have hac : ¬ a.1 = c.1 := fun e => hab (e.trans hbc.symm)
      rw [if_neg hab] at h1
      rw [if_neg hac, ← hbc]
      exact h1
    · rw [if_neg hab] at h1
      rw [if_neg hbc] at h2
      have hk := strLe_trans h1 h2
      by_cases hac : a.1 = c.1
      · rw [hac] at h1
        exact absurd (strLe_antisymm h2 h1) hbc
      · rw [if_neg hac]
        exact hk

instance : IsAntisymm (String × String) paramLe := by
  constructor
  intro a b h1 h2
  unfold paramLe at h1 h2
  by_cases hab : a.1 = b.1
  · have hba : b.1 = a.1 := hab.symm
    rw [if_pos hab] at h1
    rw [if_pos hba] at h2
    exact Prod.ext hab (strLe_antisymm h1 h2)
  · have hba : ¬ b.1 = a.1 := fun e => hab e.symm
    rw [if_neg hab] at h1
    rw [if_neg hba] at h2
    exact absurd (strLe_antisymm h1 h2) hab

/-- Sorting of the query parameters, as Python `sorted(params.items())`. -/
def sortParams (ps : List (String × String)) : List (String × String) :=
  List.insertionSort paramLe ps

theorem sortParams_eq_of_perm {p1 p2 : List (String × String)} (h : p1.Perm p2) :
    sortParams p1 = sortParams p2 :=
  List.eq_of_perm_of_sorted
    (((List.perm_insertionSort paramLe p1).trans h).trans
      (List.perm_insertionSort paramLe p2).symm)
    (List.sorted_insertionSort paramLe p1) (List.sorted_insertionSort paramLe p2)

/-- Rendering of the sorted parameters as name=value fragments. -/
def renderParams (ps : List (String × String)) : List String :=
  (sortParams ps).map (fun p => p.1 ++ "=" ++ p.2)

/-- Redis cache key for the review listing of one place, from
get_reviews_cache_key in app/api/reviews.py. -/
def get_reviews_cache_key (place_id : String) (params : List (String × String)) : String :=
  let base_key := "url:/reviews/" ++ place_id
  if params.isEmpty then base_key
  else base_key ++ "?" ++ String.intercalate "&" (renderParams params)

/-- Redis cache key for the global review listing, from
get_all_reviews_cache_key in app/api/reviews.py. -/
def get_all_reviews_cache_key (params : List (String × String)) : String :=
  let base_key := "url:/reviews/all"
  if params.isEmpty then base_key
  else base_key ++ "?" ++ String.intercalate "&" (renderParams params)

/-- Redis cache key for a place entity, from get_place_cache_key in
app/api/reviews.py. -/
def get_place_cache_key (place_type place_id : String) : String :=
  if place_type = "thing-to-do" then "things-to-do:" ++ place_id
  else place_type ++ "s:" ++ place_id

/-- C2: the cache key builders are insensitive to the insertion order of
the query parameters: any two parameter lists that are permutations of
each other produce the same key, for both the per place scheme and the
all reviews scheme. -/
theorem cache_key_independent_of_param_order
    (place_id : String) (p1 p2 : List (String × String)) (h : p1.Perm p2) :
    get_reviews_cache_key place_id p1 = get_reviews_cache_key place_id p2 ∧
    get_all_reviews_cache_key p1 = get_all_reviews_cache_key p2 := by
  have hs : sortParams p1 = sortParams p2 := sortParams_eq_of_perm h
  have he : p1.isEmpty = p2.isEmpty := by
    cases p1 with
    | nil => simp [h.nil_eq.symm]
    | cons a as =>
      cases p2 with
      | nil => exact absurd h.symm.nil_eq (by simp)
      | cons b bs => rfl
  constructor
  · unfold get_reviews_cache_key renderParams
    rw [hs, he]
  · unfold get_all_reviews_cache_key renderParams
    rw [hs, he]

/-- Witness for C2 at a concrete input: the two-element parameter lists
in opposite insertion orders give one and the same key. -/
theorem cache_key_independent_of_param_order_witness :
    (List.Perm [("page", "1"), ("order", "desc")] [("order", "desc"), ("page", "1")]) ∧
    (get_reviews_cache_key "p1" [("page", "1"), ("order", "desc")] =
      get_reviews_cache_key "p1" [("order", "desc"), ("page", "1")] ∧
     get_all_reviews_cache_key [("page", "1"), ("order", "desc")] =
      get_all_reviews_cache_key [("order", "desc"), ("page", "1")]) :=
  ⟨by decide, cache_key_independent_of_param_order "p1" _ _ (by decide)⟩

/- ---------------------------------------------------------------- -/
/- Cache invalidation (invalidate_caches in app/api/reviews.py).    -/
/- ---------------------------------------------------------------- -/
/-- Match of a redis glob pattern consisting of a literal body followed
by a trailing star: the body must be a prefix of the key. -/
def globMatches (pat k : String) : Bool :=
  List.isPrefixOf pat.toList k.toList

/-- Model of redis.keys with a trailing star glob: every cached key the
pattern body is a prefix of. -/
def redisKeysMatching (cache : List String) (pat : String) : List String :=
  cache.filter (fun k => globMatches pat k)

/-- The three place entity cache keys unconditionally scheduled for
deletion by invalidate_caches. -/
def placeDataKeys (place_id : String) : List String :=
  ["hotels:" ++ place_id, "restaurants:" ++ place_id, "things-to-do:" ++ place_id]

/-- Model of invalidate_caches: given the set of keys currently in the
cache, return the sequence of redis delete calls it issues, each one a
batch of keys.  The first call covers the place review listing keys plus
the three place entity keys; a second call covers the all reviews
listing keys when any exist. -/
def invalidate_caches (cache : List String) (place_id : String) : List (List String) :=
  let place_keys := redisKeysMatching cache ("url:/reviews/" ++ place_id)
  let keys_to_delete := place_keys ++ placeDataKeys place_id
  let first_call := if keys_to_delete.isEmpty then [] else [keys_to_delete]
  let all_reviews_keys := redisKeysMatching cache "url:/reviews/all"
  let second_call := if all_reviews_keys.isEmpty then [] else [all_reviews_keys]
  first_call ++ second_call

/-- C1 counterexample: with one cached place review listing key and one
cached all reviews listing key, invalidation issues two separate delete
calls, not one batched call covering all namespaces. -/
theorem invalidate_caches_not_single_call :
    invalidate_caches ["url:/reviews/p1?order=desc&page=1", "url:/reviews/all?page=1"] "p1" =
      [["url:/reviews/p1?order=desc&page=1",
        "hotels:p1", "restaurants:p1", "things-to-do:p1"],
       ["url:/reviews/all?page=1"]] ∧
    (invalidate_caches ["url:/reviews/p1?order=desc&page=1", "url:/reviews/all?page=1"] "p1").length ≠ 1 := by
  constructor
  · decide
  · decide

theorem invalidate_caches_first_call_nonempty (cache : List String) (place_id : String) :
    (redisKeysMatching cache ("url:/reviews/" ++ place_id) ++ placeDataKeys place_id).isEmpty = false := by
  simp [placeDataKeys]

theorem invalidate_caches_flatten (cache : List String) (place_id : String) :
    (invalidate_caches cache place_id).flatten =
      redisKeysMatching cache ("url:/reviews/" ++ place_id) ++ placeDataKeys place_id ++
        redisKeysMatching cache "url:/reviews/all" := by
  have hne := invalidate_caches_first_call_nonempty cache place_id
  unfold invalidate_caches
  by_cases hall : (redisKeysMatching cache "url:/reviews/all").isEmpty
  · rw [List.isEmpty_iff] at hall
    simp [hne, hall]
  · simp only [Bool.not_eq_true] at hall
    simp [hne, hall]

/-- C1 amended: invalidation deletes every cached key of the place
review listing namespace of that place, every cached key of the all
reviews listing namespace, and the three place entity keys, in at most
two batched delete calls: one for the place related keys, issued
unconditionally, and one for the all reviews keys, issued when any
exist. -/
theorem invalidate_caches_deletes_all_families
    (cache : List String) (place_id : String) :
    (∀ k, k ∈ (invalidate_caches cache place_id).flatten ↔
      ((k ∈ cache ∧
         (globMatches ("url:/reviews/" ++ place_id) k = true ∨
          globMatches "url:/reviews/all" k = true)) ∨
       k ∈ placeDataKeys place_id)) ∧
    (invalidate_caches cache place_id).length ≤ 2 ∧
    ∃ rest, invalidate_caches cache place_id =
      (redisKeysMatching cache ("url:/reviews/" ++ place_id) ++ placeDataKeys place_id) :: rest := by
  have hne := invalidate_caches_first_call_nonempty cache place_id
  refine ⟨?_, ?_, ?_⟩
  · intro k
    rw [invalidate_caches_flatten]
    simp only [redisKeysMatching, List.mem_append, List.mem_filter]
    tauto
  · unfold invalidate_caches
    by_cases hall : (redisKeysMatching cache "url:/reviews/all").isEmpty <;>
      simp [hne, hall]
  · unfold invalidate_caches
    by_cases hall : (redisKeysMatching cache "url:/reviews/all").isEmpty <;>
      simp [hne, hall]

/- ---------------------------------------------------------------- -/
/- JSON values and the Python int() coercion used on ratings.       -/
/- ---------------------------------------------------------------- -/

/-- JSON shapes a request body field can take after Flask parses the
body: an integer, a fraction num/den standing for a JSON float, a
string, a boolean, or null. -/
inductive JValue where
  | jint (n : Int)
  | jnum (num : Int) (den : Nat)
  | jstr (s : String)
  | jbool (b : Bool)
  | jnull
deriving DecidableEq

/-- Leading and trailing spaces removed, as Python int() strips them. -/
def stripSpaces (cs : List Char) : List Char :=
  ((cs.dropWhile (fun c => c = ' ')).reverse.dropWhile (fun c => c = ' ')).reverse

def parseNatAux : List Char → Nat → Option Nat
  | [], acc => some acc
  | c :: cs, acc =>
    if c.isDigit then parseNatAux cs (acc * 10 + (c.toNat - 48)) else none

def parseNatDigits (cs : List Char) : Option Nat :=
  if cs.isEmpty then none else parseNatAux cs 0

/-- Python int(s) on a string: optional surrounding spaces, an optional
sign, then at least one decimal digit; anything else raises ValueError,
modelled as none. -/
def pyIntOfString (s : String) : Option Int :=
  match stripSpaces s.toList with
  | '-' :: cs => (parseNatDigits cs).map (fun n => -(n : Int))
  | '+' :: cs => (parseNatDigits cs).map (fun n => (n : Int))
  | cs => (parseNatDigits cs).map (fun n => (n : Int))

/-- Python int(x) as applied to the rating field: integers unchanged,
floats truncated toward zero, strings parsed as decimal integers,
booleans mapped to 0 and 1, null raising TypeError modelled as none. -/
def pyInt : JValue → Option Int
  | .jint n => some n
  | .jnum num den => some (Int.tdiv num den)
  | .jstr s => pyIntOfString s
  | .jbool b => some (if b then 1 else 0)
  | .jnull => none

/- ---------------------------------------------------------------- -/
/- Review write handlers (create_review, update_review,             -/
/- delete_review in app/api/reviews.py).                            -/
/- ---------------------------------------------------------------- -/

/-- Observable side effects of a write handler, listed in program
order: staging a row insert or removal, transaction commit or rollback,
the rating histogram update, the review cache invalidation, and the
user preference cache refresh. -/
inductive Event where
  | add
  | remove
  | commit
  | rollback
  | histogram (old : Option Int) (new : Option Int)
  | invalidateFor (place_id : String)
  | prefRefresh (user_id : String)
deriving DecidableEq

/-- The part of a handler response the claims are about: HTTP status,
the error message of an error body, and the rating echoed on success. -/
structure Response where
  status : Nat
  error : Option String
  rating : Option Int
deriving DecidableEq

/-- Outcome of db.session.commit, distinguishing which constraint an
IntegrityError names, since create_review branches on the message. -/
inductive CommitResult where
  | ok
  | integrityFkeyUser
  | integrityUniqueReview
  | integrityOther
  | storeError
deriving DecidableEq

/-- Inputs and collaborator outcomes of one create_review request. -/
structure CreateEnv where
  user_id : String
  place_id : String
  jsonValid : Bool
  hasRating : Bool
  hasReview : Bool
  ratingVal : JValue
  reviewText : String
  placeExists : Bool
  userExists : Bool
  alreadyReviewed : Bool
  commitResult : CommitResult
deriving DecidableEq

/-- Model of create_review: validation, place and user checks, the
duplicate pre check, then insert plus commit, and on success the three
downstream effects in source order. -/
def create_review (e : CreateEnv) : Response × List Event :=
  if ¬ e.jsonValid then (⟨400, some "Request body must be valid JSON", none⟩, [])
  else if ¬ (e.hasRating ∧ e.hasReview) then
    (⟨400, some "Rating and review are required", none⟩, [])
  else match pyInt e.ratingVal with
    | none => (⟨400, some "Rating must be a valid integer between 1 and 5", none⟩, [])
    | some rating =>
      if rating < 1 ∨ rating > 5 then
        (⟨400, some "Rating must be between 1 and 5", none⟩, [])
      else if ¬ e.placeExists then (⟨404, some "Place not found", none⟩, [])
      else if ¬ e.userExists then
        (⟨401, some "User not found. Please log in again.", none⟩, [])
      else if e.alreadyReviewed then
        (⟨400, some "You have already reviewed this place", none⟩, [])
      else match e.commitResult with
        | .ok =>
          (⟨201, none, some rating⟩,
           [.add, .commit, .histogram none (some rating),
            .invalidateFor e.place_id, .prefRefresh e.user_id])
        | .integrityFkeyUser =>
          (⟨401, some "User not found. Please log in again.", none⟩, [.add, .rollback])
        | .integrityUniqueReview =>
          (⟨400, some "You have already reviewed this place", none⟩, [.add, .rollback])
        | .integrityOther =>
          (⟨400, some "Failed to create review due to data constraint", none⟩, [.add, .rollback])
        | .storeError =>
          (⟨500, some "Failed to create review", none⟩, [.add, .rollback])

/-- Inputs and collaborator outcomes of one update_review request. -/
structure UpdateEnv where
  user_id : String
  place_id : String
  jsonValid : Bool
  hasRating : Bool
  hasReviewField : Bool
  ratingVal : JValue
  reviewText : String
  placeExists : Bool
  reviewFound : Bool
  oldRating : Int
  commitResult : CommitResult
deriving DecidableEq

/-- Rating validation of update_review when the field is present. -/
def checkUpdateRating (e : UpdateEnv) : Except Response (Option Int) :=
  if e.hasRating then
    match pyInt e.ratingVal with
    | none => .error ⟨400, some "Rating must be a valid integer between 1 and 5", none⟩
    | some r =>
      if r < 1 ∨ r > 5 then .error ⟨400, some "Rating must be between 1 and 5", none⟩
      else .ok (some r)
  else .ok none

/-- Model of update_review: validation, place and review lookup, commit
of the partial update, then the downstream effects in source order, the
histogram update only when the rating field was given and changed.  The
handler catches every SQLAlchemyError kind the same way, so every non
ok commit outcome rolls back with a 500. -/
def update_review (e : UpdateEnv) : Response × List Event :=
  if ¬ e.jsonValid then (⟨400, some "Request body must be valid JSON", none⟩, [])
  else if ¬ (e.hasRating ∨ e.hasReviewField) then
    (⟨400, some "At least one field (rating or review) must be provided", none⟩, [])
  else match checkUpdateRating e with
    | .error resp => (resp, [])
    | .ok newRatingOpt =>
      if ¬ e.placeExists then (⟨404, some "Place not found", none⟩, [])
      else if ¬ e.reviewFound then (⟨404, some "Review not found", none⟩, [])
      else
        let newRating := newRatingOpt.getD e.oldRating
        match e.commitResult with
        | .ok =>
          (⟨200, none, some newRating⟩,
           [Event.commit] ++
             (if e.hasRating ∧ e.oldRating ≠ newRating then
               [Event.histogram (some e.oldRating) (some newRating)]
              else []) ++
             [Event.invalidateFor e.place_id, Event.prefRefresh e.user_id])
        | _ => (⟨500, some "Failed to update review", none⟩, [.rollback])

/-- Inputs and collaborator outcomes of one delete_review request. -/
structure DeleteEnv where
  user_id : String
  place_id : String
  placeExists : Bool
  reviewFound : Bool
  oldRating : Int
  commitResult : CommitResult
deriving DecidableEq

/-- Model of delete_review: place and review lookup, staged removal
plus commit, then the downstream effects in source order. -/
def delete_review (e : DeleteEnv) : Response × List Event :=
  if ¬ e.placeExists then (⟨404, some "Place not found", none⟩, [])
  else if ¬ e.reviewFound then (⟨404, some "Review not found", none⟩, [])
  else match e.commitResult with
    | .ok =>
      (⟨200, none, none⟩,
       [.remove, .commit, .histogram (some e.oldRating) none,
        .invalidateFor e.place_id, .prefRefresh e.user_id])
    | _ => (⟨500, some "Failed to delete review", none⟩, [.remove, .rollback])

/- ---------------------------------------------------------------- -/
/- Review Cache helpers and the read handler (get_cached_reviews,   -/
/- cache_reviews, get_place_reviews in app/api/reviews.py).         -/
/- ---------------------------------------------------------------- -/

/-- Outcome of the redis get inside get_cached_reviews: a decodable
cached value, a cached value json.loads rejects, no cached value, or a
raised connectivity error. -/
inductive RedisGetOutcome (α : Type) where
  | value (v : α)
  | badValue
  | absent
  | failure
deriving DecidableEq

/-- Model of get_cached_reviews: the surrounding try block catches any
failure (connectivity or deserialization) and returns None, the same
result as a cache miss. -/
def get_cached_reviews {α : Type} : RedisGetOutcome α → Option α
  | .value v => some v
  | .badValue => none
  | .absent => none
  | .failure => none

/-- Model of cache_reviews: the redis setex call may raise; the handler
catches every exception and returns normally either way, so the only
observable outcome is whether the value ended up cached. -/
def cache_reviews (setFails : Bool) : Bool :=
  if setFails then false else true

/-- Inputs and collaborator outcomes of one get_place_reviews request,
generic in the type of the paging envelope. -/
structure ReadEnv (α : Type) where
  page : Int
  size : Int
  sort_by : String
  order : String
  placeExists : Bool
  storeOk : Bool
  storeValue : α

def valid_sort_fields : List String := ["rating", "updated_at", "created_at"]

def valid_orders : List String := ["asc", "desc"]

/-- A read handler response: HTTP status, error message of an error
body, and the served paging envelope on success. -/
structure ReadResponse (α : Type) where
  status : Nat
  error : Option String
  body : Option α
deriving DecidableEq

/-- Model of get_place_reviews: pagination and sort validation, place
check, cache lookup, on miss a store query whose result is served and
written back to the cache best effort.  The second component records
whether a cache entry was written. -/
def get_place_reviews {α : Type} (e : ReadEnv α) (cg : RedisGetOutcome α)
    (setFails : Bool) : ReadResponse α × Bool :=
  if e.page < 1 then (⟨400, some "Page must be greater than 0", none⟩, false)
  else if e.size < 1 ∨ e.size > 100 then
    (⟨400, some "Size must be between 1 and 100", none⟩, false)
  else if ¬ valid_sort_fields.contains e.sort_by then
    (⟨400, some "Invalid sort_by. Must be one of: rating, updated_at, created_at", none⟩, false)
  else if ¬ valid_orders.contains e.order then
    (⟨400, some "Invalid order. Must be one of: asc, desc", none⟩, false)
  else if ¬ e.placeExists then (⟨404, some "Place not found", none⟩, false)
  else match get_cached_reviews cg with
    | some v => (⟨200, none, some v⟩, false)
    | none =>
      if e.storeOk then (⟨200, none, some e.storeValue⟩, cache_reviews setFails)
      else (⟨500, some "Failed to fetch reviews", none⟩, false)

/- ---------------------------------------------------------------- -/
/- get_my_place_review (app/api/reviews.py) and the generic         -/
/- exception handler (app/api/__init__.py).                         -/
/- ---------------------------------------------------------------- -/

/-- A stored review row joined with its authoring user. -/
structure ReviewRow where
  user_id : String
  place_id : String
  rating : Int
deriving DecidableEq

/-- Model of get_my_place_review: authentication is optional on this
route, so the identity is an Option; the store filter compares the
user_id column against the identity value, and a null identity matches
no stored row, exactly as SQL null comparison does. -/
def get_my_place_review (identity : Option String) (placeExists : Bool)
    (reviews : List ReviewRow) (place_id : String) : Response :=
  if ¬ placeExists then ⟨404, some "Place not found", none⟩
  else
    match reviews.find? (fun r =>
        (match identity with
         | some u => u == r.user_id
         | none => false) && r.place_id == place_id) with
    | none => ⟨404, some "You have not reviewed this place yet", none⟩
    | some r => ⟨200, none, some r.rating⟩

/-- Modelled from the spec: APIResponse.error lives in
app/utils/response.py, which is not under src; per the spec it builds a
structured JSON error body carrying a stable error message and returns
it with the given HTTP status code. -/
structure APIErrorResponse where
  message : String
  status : Nat
deriving DecidableEq

/-- The werkzeug InternalServerError exception name, the message the
handler passes along. -/
def internalServerErrorName : String := "Internal Server Error"

/-- Model of exception_handler in app/api/__init__.py: every unhandled
exception is logged, and answered with the generic internal server
error body and the literal status 200 written in the source; the
exception text is ignored when the body is built. -/
def exception_handler (_excText : String) : APIErrorResponse :=
  ⟨internalServerErrorName, 200⟩

/- ---------------------------------------------------------------- -/
/- Success path predicates shared by the write handler claims.      -/
/- ---------------------------------------------------------------- -/

/-- A create_review request that passes every check before the store
mutation: valid body, valid rating, existing place and user, and no
duplicate found by the pre check. -/
def createReachesCommit (e : CreateEnv) : Prop :=
  e.jsonValid = true ∧ e.hasRating = true ∧ e.hasReview = true ∧
  (∃ r, pyInt e.ratingVal = some r ∧ 1 ≤ r ∧ r ≤ 5) ∧
  e.placeExists = true ∧ e.userExists = true ∧ e.alreadyReviewed = false

/-- An update_review request that passes every check before the store
mutation. -/
def updateReachesCommit (e : UpdateEnv) : Prop :=
  e.jsonValid = true ∧ (e.hasRating = true ∨ e.hasReviewField = true) ∧
  (∃ ru, checkUpdateRating e = Except.ok ru) ∧
  e.placeExists = true ∧ e.reviewFound = true

/-- A delete_review request that passes every check before the store
mutation. -/
def deleteReachesCommit (e : DeleteEnv) : Prop :=
  e.placeExists = true ∧ e.reviewFound = true
/-- C3: for every write operation whose store mutation commits, the
downstream effects appear strictly after the commit and in source
order: rating histogram update (when applicable), then cache
invalidation for that place, then the acting users preference cache
refresh. -/
theorem write_effects_follow_commit_in_order
    (ce : CreateEnv) (ue : UpdateEnv) (de : DeleteEnv)
    (hc : createReachesCommit ce) (hco : ce.commitResult = CommitResult.ok)
    (hu : updateReachesCommit ue) (huo : ue.commitResult = CommitResult.ok)
    (hd : deleteReachesCommit de) (hdo : de.commitResult = CommitResult.ok) :
    (∃ n, (create_review ce).2 =
      [Event.add, Event.commit, Event.histogram none (some n),
       Event.invalidateFor ce.place_id, Event.prefRefresh ce.user_id]) ∧
    (∃ hist, (update_review ue).2 =
      Event.commit :: (hist ++ [Event.invalidateFor ue.place_id, Event.prefRefresh ue.user_id]) ∧
      (hist = [] ∨ ∃ o n, hist = [Event.histogram o n])) ∧
    (delete_review de).2 =
      [Event.remove, Event.commit, Event.histogram (some de.oldRating) none,
       Event.invalidateFor de.place_id, Event.prefRefresh de.user_id] := by
  obtain ⟨h1, h2, h3, ⟨r, hr, hr1, hr5⟩, h4, h5, h6⟩ := hc
  obtain ⟨g1, g2, ⟨ru, hru⟩, g3, g4⟩ := hu
  obtain ⟨d1, d2⟩ := hd
  have hrange : ¬ (r < 1 ∨ r > 5) := by omega
  refine ⟨⟨r, ?_⟩, ⟨?_, ?_, ?_⟩, ?_⟩
  · simp [create_review, h1, h2, h3, hr, hrange, h4, h5, h6, hco]
  · exact if ue.hasRating ∧ ue.oldRating ≠ (ru.getD ue.oldRating) then
      [Event.histogram (some ue.oldRating) (some (ru.getD ue.oldRating))] else []
  · rcases g2 with g2 | g2 <;>
      simp [update_review, g1, g2, hru, g3, g4, huo]
  · by_cases hcond : ue.hasRating ∧ ue.oldRating ≠ (ru.getD ue.oldRating)
    · exact Or.inr ⟨some ue.oldRating, some (ru.getD ue.oldRating), by simp [hcond]⟩
    · exact Or.inl (by simp [hcond])
  · simp [delete_review, d1, d2, hdo]

/-- A create_review request that passes every check, with rating 4. -/
def sampleCreateOk : CreateEnv :=
  { user_id := "u1", place_id := "p1", jsonValid := true, hasRating := true,
    hasReview := true, ratingVal := JValue.jint 4, reviewText := "Great stay",
    placeExists := true, userExists := true, alreadyReviewed := false,
    commitResult := CommitResult.ok }

/-- An update_review request that passes every check, raising the
rating from 4 to 5. -/
def sampleUpdateOk : UpdateEnv :=
  { user_id := "u1", place_id := "p1", jsonValid := true, hasRating := true,
    hasReviewField := false, ratingVal := JValue.jint 5, reviewText := "",
    placeExists := true, reviewFound := true, oldRating := 4,
    commitResult := CommitResult.ok }

/-- A delete_review request that passes every check. -/
def sampleDeleteOk : DeleteEnv :=
  { user_id := "u1", place_id := "p1", placeExists := true, reviewFound := true,
    oldRating := 4, commitResult := CommitResult.ok }

theorem sampleCreateOk_reaches : createReachesCommit sampleCreateOk :=
  ⟨rfl, rfl, rfl, ⟨4, rfl, by norm_num, by norm_num⟩, rfl, rfl, rfl⟩

theorem sampleUpdateOk_reaches : updateReachesCommit sampleUpdateOk :=
  ⟨rfl, Or.inl rfl, ⟨some 5, rfl⟩, rfl, rfl⟩

theorem sampleDeleteOk_reaches : deleteReachesCommit sampleDeleteOk :=
  ⟨rfl, rfl⟩

/-- Witness for C3 at concrete successful create, update and delete
requests. -/
theorem write_effects_follow_commit_in_order_witness :
    (createReachesCommit sampleCreateOk ∧ sampleCreateOk.commitResult = CommitResult.ok ∧
     updateReachesCommit sampleUpdateOk ∧ sampleUpdateOk.commitResult = CommitResult.ok ∧
     deleteReachesCommit sampleDeleteOk ∧ sampleDeleteOk.commitResult = CommitResult.ok) ∧
    ((∃ n, (create_review sampleCreateOk).2 =
      [Event.add, Event.commit, Event.histogram none (some n),
       Event.invalidateFor sampleCreateOk.place_id, Event.prefRefresh sampleCreateOk.user_id]) ∧
    (∃ hist, (update_review sampleUpdateOk).2 =
      Event.commit :: (hist ++ [Event.invalidateFor sampleUpdateOk.place_id,
        Event.prefRefresh sampleUpdateOk.user_id]) ∧
      (hist = [] ∨ ∃ o n, hist = [Event.histogram o n])) ∧
    (delete_review sampleDeleteOk).2 =
      [Event.remove, Event.commit, Event.histogram (some sampleDeleteOk.oldRating) none,
       Event.invalidateFor sampleDeleteOk.place_id, Event.prefRefresh sampleDeleteOk.user_id]) :=
  ⟨⟨sampleCreateOk_reaches, rfl, sampleUpdateOk_reaches, rfl, sampleDeleteOk_reaches, rfl⟩,
   write_effects_follow_commit_in_order sampleCreateOk sampleUpdateOk sampleDeleteOk
     sampleCreateOk_reaches rfl sampleUpdateOk_reaches rfl sampleDeleteOk_reaches rfl⟩

/-- C4: for every write operation whose commit raises a store error,
the transaction is rolled back, the request answers 500, and none of
the downstream effects (histogram, invalidation, preference refresh)
nor a commit appears in the trace, so no partial state persists. -/
theorem store_error_rolls_back_and_aborts
    (ce : CreateEnv) (ue : UpdateEnv) (de : DeleteEnv)
    (hc : createReachesCommit ce) (hcs : ce.commitResult = CommitResult.storeError)
    (hu : updateReachesCommit ue) (hus : ue.commitResult = CommitResult.storeError)
    (hd : deleteReachesCommit de) (hds : de.commitResult = CommitResult.storeError) :
    ((create_review ce).1 = ⟨500, some "Failed to create review", none⟩ ∧
      (create_review ce).2 = [Event.add, Event.rollback]) ∧
    ((update_review ue).1 = ⟨500, some "Failed to update review", none⟩ ∧
      (update_review ue).2 = [Event.rollback]) ∧
    ((delete_review de).1 = ⟨500, some "Failed to delete review", none⟩ ∧
      (delete_review de).2 = [Event.remove, Event.rollback]) := by
  obtain ⟨h1, h2, h3, ⟨r, hr, hr1, hr5⟩, h4, h5, h6⟩ := hc
  obtain ⟨g1, g2, ⟨ru, hru⟩, g3, g4⟩ := hu
  obtain ⟨d1, d2⟩ := hd
  have hrange : ¬ (r < 1 ∨ r > 5) := by omega
  refine ⟨⟨?_, ?_⟩, ⟨?_, ?_⟩, ⟨?_, ?_⟩⟩
  · simp [create_review, h1, h2, h3, hr, hrange, h4, h5, h6, hcs]
  · simp [create_review, h1, h2, h3, hr, hrange, h4, h5, h6, hcs]
  · rcases g2 with g2 | g2 <;> simp [update_review, g1, g2, hru, g3, g4, hus]
  · rcases g2 with g2 | g2 <;> simp [update_review, g1, g2, hru, g3, g4, hus]
  · simp [delete_review, d1, d2, hds]
  · simp [delete_review, d1, d2, hds]

/-- Witness for C4 at concrete requests whose commit raises a store
error. -/
theorem store_error_rolls_back_and_aborts_witness :
    (createReachesCommit { sampleCreateOk with commitResult := CommitResult.storeError } ∧
     updateReachesCommit { sampleUpdateOk with commitResult := CommitResult.storeError } ∧
     deleteReachesCommit { sampleDeleteOk with commitResult := CommitResult.storeError }) ∧
    ((create_review { sampleCreateOk with commitResult := CommitResult.storeError }).1 =
        ⟨500, some "Failed to create review", none⟩ ∧
     (create_review { sampleCreateOk with commitResult := CommitResult.storeError }).2 =
        [Event.add, Event.rollback]) :=
  ⟨⟨⟨rfl, rfl, rfl, ⟨4, rfl, by norm_num, by norm_num⟩, rfl, rfl, rfl⟩,
    ⟨rfl, Or.inl rfl, ⟨some 5, rfl⟩, rfl, rfl⟩, ⟨rfl, rfl⟩⟩,
   (store_error_rolls_back_and_aborts
     { sampleCreateOk with commitResult := CommitResult.storeError }
     { sampleUpdateOk with commitResult := CommitResult.storeError }
     { sampleDeleteOk with commitResult := CommitResult.storeError }
     ⟨rfl, rfl, rfl, ⟨4, rfl, by norm_num, by norm_num⟩, rfl, rfl, rfl⟩ rfl
     ⟨rfl, Or.inl rfl, ⟨some 5, rfl⟩, rfl, rfl⟩ rfl
     ⟨rfl, rfl⟩ rfl).1⟩

/-- A create_review request that passes every check except that a
review by that user for that place already exists. -/
def createPrecheckDuplicate (e : CreateEnv) : Prop :=
  e.jsonValid = true ∧ e.hasRating = true ∧ e.hasReview = true ∧
  (∃ r, pyInt e.ratingVal = some r ∧ 1 ≤ r ∧ r ≤ 5) ∧
  e.placeExists = true ∧ e.userExists = true ∧ e.alreadyReviewed = true

/-- C5: a duplicate review is answered with the identical conflict
response, status 400 and the message that this place was already
reviewed, whether the duplicate is found by the pre check query or by
the uniqueness constraint at commit time. -/
theorem duplicate_review_same_conflict_response
    (e1 e2 : CreateEnv)
    (h1 : createPrecheckDuplicate e1)
    (h2 : createReachesCommit e2)
    (h2c : e2.commitResult = CommitResult.integrityUniqueReview) :
    (create_review e1).1 = ⟨400, some "You have already reviewed this place", none⟩ ∧
    (create_review e2).1 = ⟨400, some "You have already reviewed this place", none⟩ ∧
    (create_review e1).1 = (create_review e2).1 := by
  obtain ⟨a1, a2, a3, ⟨r, hr, hr1, hr5⟩, a4, a5, a6⟩ := h1
  obtain ⟨b1, b2, b3, ⟨s, hs, hs1, hs5⟩, b4, b5, b6⟩ := h2
  have hrange : ¬ (r < 1 ∨ r > 5) := by omega
  have hrange2 : ¬ (s < 1 ∨ s > 5) := by omega
  have e1resp : (create_review e1).1 = ⟨400, some "You have already reviewed this place", none⟩ := by
    simp [create_review, a1, a2, a3, hr, hrange, a4, a5, a6]
  have e2resp : (create_review e2).1 = ⟨400, some "You have already reviewed this place", none⟩ := by
    simp [create_review, b1, b2, b3, hs, hrange2, b4, b5, b6, h2c]
  exact ⟨e1resp, e2resp, e1resp.trans e2resp.symm⟩

/-- Witness for C5: the same duplicate request, once losing at the pre
check and once losing at commit time, gets the same response. -/
theorem duplicate_review_same_conflict_response_witness :
    (createPrecheckDuplicate { sampleCreateOk with alreadyReviewed := true } ∧
     createReachesCommit { sampleCreateOk with commitResult := CommitResult.integrityUniqueReview } ∧
     ({ sampleCreateOk with commitResult := CommitResult.integrityUniqueReview } : CreateEnv).commitResult = CommitResult.integrityUniqueReview) ∧
    (create_review { sampleCreateOk with alreadyReviewed := true }).1 =
      (create_review { sampleCreateOk with commitResult := CommitResult.integrityUniqueReview }).1 :=
  ⟨⟨⟨rfl, rfl, rfl, ⟨4, rfl, by norm_num, by norm_num⟩, rfl, rfl, rfl⟩,
    ⟨rfl, rfl, rfl, ⟨4, rfl, by norm_num, by norm_num⟩, rfl, rfl, rfl⟩, rfl⟩,
   (duplicate_review_same_conflict_response
     { sampleCreateOk with alreadyReviewed := true }
     { sampleCreateOk with commitResult := CommitResult.integrityUniqueReview }
     ⟨rfl, rfl, rfl, ⟨4, rfl, by norm_num, by norm_num⟩, rfl, rfl, rfl⟩
     ⟨rfl, rfl, rfl, ⟨4, rfl, by norm_num, by norm_num⟩, rfl, rfl, rfl⟩ rfl).2.2⟩

/-- C6: cache failures are invisible to the caller.  A failing or
undecodable cache get behaves exactly like a cache miss, the whole read
request then proceeding to the store, and a failing cache set leaves
the response of the parent request unchanged. -/
theorem cache_failures_never_change_response (α : Type) :
    (@get_cached_reviews α RedisGetOutcome.failure = none ∧
     @get_cached_reviews α RedisGetOutcome.badValue = none ∧
     @get_cached_reviews α RedisGetOutcome.absent = none) ∧
    (∀ (e : ReadEnv α) (sf : Bool),
      get_place_reviews e RedisGetOutcome.failure sf =
        get_place_reviews e RedisGetOutcome.absent sf ∧
      get_place_reviews e RedisGetOutcome.badValue sf =
        get_place_reviews e RedisGetOutcome.absent sf) ∧
    (∀ (e : ReadEnv α) (cg : RedisGetOutcome α),
      (get_place_reviews e cg true).1 = (get_place_reviews e cg false).1) := by
  refine ⟨⟨rfl, rfl, rfl⟩, fun e sf => ⟨rfl, rfl⟩, fun e cg => ?_⟩
  unfold get_place_reviews
  split_ifs <;> try rfl
  cases cg <;> rfl

/-- C7: the generic exception handler ignores the exception text and
answers every unhandled exception with the same structured body
carrying the werkzeug internal server error name, but with HTTP status
200 as written in the source, not 500. -/
theorem exception_handler_generic_but_status_200 :
    (∀ excText, exception_handler excText = ⟨internalServerErrorName, 200⟩) ∧
    (exception_handler "ZeroDivisionError: division by zero").status = 200 ∧
    (exception_handler "ZeroDivisionError: division by zero").status ≠ 500 :=
  ⟨fun _ => rfl, rfl, by decide⟩

theorem pyInt_abc : pyInt (JValue.jstr "abc") = none := by decide

theorem pyIntOfString_abc : pyIntOfString "abc" = none := by decide

/-- C8: the listed invalid inputs are each rejected with a 400 and no
mutation: rating 0, 6 or the string abc on create and update; size 0,
size 101 or page 0 on a listing; and an unknown sort_by value on a
listing. -/
theorem invalid_inputs_rejected_with_400 :
    (∀ e : CreateEnv, e.jsonValid = true → e.hasRating = true → e.hasReview = true →
      (e.ratingVal = JValue.jint 0 ∨ e.ratingVal = JValue.jint 6 ∨
        e.ratingVal = JValue.jstr "abc") →
      (create_review e).1.status = 400 ∧ (create_review e).2 = []) ∧
    (∀ e : UpdateEnv, e.jsonValid = true → e.hasRating = true →
      (e.ratingVal = JValue.jint 0 ∨ e.ratingVal = JValue.jint 6 ∨
        e.ratingVal = JValue.jstr "abc") →
      (update_review e).1.status = 400 ∧ (update_review e).2 = []) ∧
    (∀ (α : Type) (e : ReadEnv α) (cg : RedisGetOutcome α) (sf : Bool),
      (e.size = 0 ∨ e.size = 101 ∨ e.page = 0) →
      (get_place_reviews e cg sf).1.status = 400) ∧
    (∀ (α : Type) (e : ReadEnv α) (cg : RedisGetOutcome α) (sf : Bool),
      1 ≤ e.page → 1 ≤ e.size → e.size ≤ 100 → e.sort_by = "bogus" →
      (get_place_reviews e cg sf).1.status = 400) := by
  refine ⟨?_, ?_, ?_, ?_⟩
  · intro e h1 h2 h3 hv
    rcases hv with hv | hv | hv <;>
      simp [create_review, h1, h2, h3, hv, pyInt_abc, pyIntOfString_abc, pyInt]
  · intro e h1 h2 hv
    rcases hv with hv | hv | hv <;>
      simp [update_review, checkUpdateRating, h1, h2, hv, pyInt_abc, pyIntOfString_abc, pyInt]
  · intro α e cg sf hv
    unfold get_place_reviews
    rcases hv with hv | hv | hv <;> by_cases hp : e.page < 1 <;>
      simp [hp, hv]
  · intro α e cg sf hpage hsize1 hsize2 hsort
    have hp : ¬ e.page < 1 := by omega
    have hs : ¬ (e.size < 1 ∨ e.size > 100) := by omega
    have hb : e.sort_by ∉ valid_sort_fields := by
      rw [hsort]; decide
    simp [get_place_reviews, hp, hs, hb]

/-- Witness for C8 at concrete bad inputs: rating 0 on create, the
string abc on update, size 0 and sort_by bogus on listings. -/
theorem invalid_inputs_rejected_with_400_witness :
    (create_review { sampleCreateOk with ratingVal := JValue.jint 0 }).1.status = 400 ∧
    (update_review { sampleUpdateOk with ratingVal := JValue.jstr "abc" }).1.status = 400 ∧
    (get_place_reviews
      { page := 1, size := 0, sort_by := "created_at", order := "desc",
        placeExists := true, storeOk := true, storeValue := (0 : Nat) }
      RedisGetOutcome.absent false).1.status = 400 ∧
    (get_place_reviews
      { page := 1, size := 10, sort_by := "bogus", order := "desc",
        placeExists := true, storeOk := true, storeValue := (0 : Nat) }
      RedisGetOutcome.absent false).1.status = 400 := by
  refine ⟨?_, ?_, ?_, ?_⟩
  · exact (invalid_inputs_rejected_with_400.1 _ rfl rfl rfl (Or.inl rfl)).1
  · exact (invalid_inputs_rejected_with_400.2.1 _ rfl rfl (Or.inr (Or.inr rfl))).1
  · exact invalid_inputs_rejected_with_400.2.2.1 Nat _ _ _ (Or.inl rfl)
  · exact invalid_inputs_rejected_with_400.2.2.2 Nat _ _ _
      (by norm_num) (by norm_num) (by norm_num) rfl

/-- C9: a rating field that is not an integer but that Python int()
coerces to an integer in range, such as the string 4 or the float 4.7,
is accepted: the review is created or updated with the coerced value. -/
theorem coercible_rating_accepted
    (ce : CreateEnv) (ue : UpdateEnv) (r ru : Int)
    (h1 : ce.jsonValid = true) (h2 : ce.hasRating = true) (h3 : ce.hasReview = true)
    (h4 : pyInt ce.ratingVal = some r) (h5 : 1 ≤ r) (h6 : r ≤ 5)
    (h7 : ce.placeExists = true) (h8 : ce.userExists = true)
    (h9 : ce.alreadyReviewed = false) (h10 : ce.commitResult = CommitResult.ok)
    (g1 : ue.jsonValid = true) (g2 : ue.hasRating = true)
    (g3 : pyInt ue.ratingVal = some ru) (g4 : 1 ≤ ru) (g5 : ru ≤ 5)
    (g6 : ue.placeExists = true) (g7 : ue.reviewFound = true)
    (g8 : ue.commitResult = CommitResult.ok) :
    (create_review ce).1 = ⟨201, none, some r⟩ ∧
    (update_review ue).1 = ⟨200, none, some ru⟩ := by
  have hrange : ¬ (r < 1 ∨ r > 5) := by omega
  have hrange2 : ¬ (ru < 1 ∨ ru > 5) := by omega
  constructor
  · simp [create_review, h1, h2, h3, h4, hrange, h7, h8, h9, h10]
  · simp [update_review, checkUpdateRating, g1, g2, g3, hrange2, g6, g7, g8]

/-- Witness for C9: create with the string rating 4 and update with the
float rating 4.7, both accepted with the coerced value 4. -/
theorem coercible_rating_accepted_witness :
    pyInt (JValue.jstr "4") = some 4 ∧
    pyInt (JValue.jnum 47 10) = some 4 ∧
    (create_review { sampleCreateOk with ratingVal := JValue.jstr "4" }).1 =
      ⟨201, none, some 4⟩ ∧
    (update_review { sampleUpdateOk with ratingVal := JValue.jnum 47 10 }).1 =
      ⟨200, none, some 4⟩ := by
  refine ⟨by decide, by decide, ?_⟩
  exact coercible_rating_accepted
    { sampleCreateOk with ratingVal := JValue.jstr "4" }
    { sampleUpdateOk with ratingVal := JValue.jnum 47 10 } 4 4
    rfl rfl rfl (by decide) (by norm_num) (by norm_num) rfl rfl rfl rfl
    rfl rfl (by decide) (by norm_num) (by norm_num) rfl rfl rfl

/-- C10: a my review request without a JWT identity on an existing
place is answered with the 404 not reviewed response, not a 401: the
null identity matches no stored review row. -/
theorem missing_identity_yields_not_reviewed
    (reviews : List ReviewRow) (place_id : String) :
    get_my_place_review none true reviews place_id =
      ⟨404, some "You have not reviewed this place yet", none⟩ := by
  unfold get_my_place_review
  have hfind : reviews.find? (fun r =>
      (match (none : Option String) with
       | some u => u == r.user_id
       | none => false) && r.place_id == place_id) = none := by
    rw [List.find?_eq_none]
    intro x hx
    simp
  rw [hfind]
  simp
